import Mathlib

/-!
Verification of the `aqi` CLI (package `cmd`, file `cmd/get.go`) against its
natural-language specification.

The single source file defines:
* a query builder mapping the five location flags to a URL (`getAqi`, lines 89-98);
* a fetch-and-decode step (lines 100-126) with fatal error handling via `log.Fatal`;
* a per-station reporting loop (lines 128-143) that logs a JSON summary and
  opens a terminal view per station;
* the terminal view `dataUi` (lines 146-207): a gauge (percent, title, bar color),
  two lists, one render, and an event loop that returns on "q" or "<C-c>".

Floating-point (`float64`) fields are modelled as exact rationals (`ℚ`); Go's
`int(f)` conversion is truncation toward zero (`goInt`). Process-level effects
(`log.Fatal` = print and `os.Exit`, which does NOT run deferred functions; a
nil-pointer dereference = runtime panic) are modelled by an explicit `Outcome`,
an event trace, and a `bodyClosed` flag in `RunResult`.
-/

namespace Aqi

/-! ### Data model (structs of `cmd/get.go`, lines 38-75) -/

/-- `AqiInfo` struct (lines 71-75). -/
structure AqiInfo where
  pollutant : String
  concentration : ℚ
  category : String
  deriving DecidableEq, Repr

/-- `Station` struct (lines 43-60). -/
structure Station where
  co : ℚ
  no2 : ℚ
  ozone : ℚ
  pm10 : ℚ
  pm25 : ℚ
  countryCode : String
  division : String
  lat : ℚ
  lng : ℚ
  postalCode : String
  city : String
  place : String
  state : String
  updatedAt : String
  aqi : ℚ
  aqiInfo : AqiInfo
  deriving DecidableEq, Repr

/-- `Aqi` summary struct (lines 62-69). -/
structure AqiSummary where
  city : String
  place : String
  state : String
  updatedAt : String
  aqi : ℚ
  aqiInfo : AqiInfo
  deriving DecidableEq, Repr

/-- `ApiResponse` struct (lines 38-41). -/
structure ApiResponse where
  message : String
  stations : List Station
  deriving DecidableEq, Repr

/-- The reduced summary built from a station (lines 129-136). -/
def toAqiSummary (s : Station) : AqiSummary :=
  { city := s.city
    place := s.place
    state := s.state
    updatedAt := s.updatedAt
    aqi := s.aqi
    aqiInfo := s.aqiInfo }

/-! ### Query builder (lines 89-98)

`buildUrl` returns `some url` when one of the three `if` guards fires, and
`none` for the `else` branch, in which the program calls `log.Fatal` with a
usage message. The guards are translated verbatim: note that the second guard
(`postal != "" && country != "" && latitude == "" && longitude == ""`) does not
inspect `city`, and the third guard (`latitude != "" && longitude != ""`)
inspects neither `city` nor `postal` nor `country`. -/

def buildUrl (city postal country latitude longitude : String) : Option String :=
  if city ≠ "" ∧ postal = "" ∧ country = "" ∧ latitude = "" ∧ longitude = "" then
    some ("http://localhost:3000/api?city=" ++ city)
  else if postal ≠ "" ∧ country ≠ "" ∧ latitude = "" ∧ longitude = "" then
    some ("http://localhost:3000/api?postal=" ++ postal ++ "&country=" ++ country)
  else if latitude ≠ "" ∧ longitude ≠ "" then
    some ("http://localhost:3000/api?lat=" ++ latitude ++ "&lng=" ++ longitude)
  else
    none

/-- The three valid location shapes exactly as the specification words them:
city alone; postal together with country (and nothing else); latitude together
with longitude (and nothing else). This is a spec-side definition, kept for
comparison with the code-side `buildUrl`. -/
def specValidShape (city postal country latitude longitude : String) : Prop :=
  (city ≠ "" ∧ postal = "" ∧ country = "" ∧ latitude = "" ∧ longitude = "") ∨
  (city = "" ∧ postal ≠ "" ∧ country ≠ "" ∧ latitude = "" ∧ longitude = "") ∨
  (city = "" ∧ postal = "" ∧ country = "" ∧ latitude ≠ "" ∧ longitude ≠ "")

instance (c p o la lo : String) : Decidable (specValidShape c p o la lo) := by
  unfold specValidShape
  infer_instance

/-! ### Run model for `getAqi` (lines 77-144)

The effectful steps are parameterised by an environment describing the
behaviour of the external world and libraries for this run:
* `newRequestErr`: the error of `http.NewRequest` (line 100), `some e` fatal;
* `doResult`: the response of `http.DefaultClient.Do` (line 107) — `none`
  models the error case, in which `Do` returns a nil response and a non-nil
  error that the code discards (`res, _ :=`);
* `readErr`: the error return of `ioutil.ReadAll` (line 116), which the code
  discards (`body, _ :=`); the bytes read are `HttpResp.body`;
* `decode`: the behaviour of `json.Unmarshal` (line 119) on the body bytes;
* `marshalErr`: the error of `json.Marshal` (line 137) on a summary;
* `uiInitOk`: whether `ui.Init` (line 150) succeeds;
* `closeErr`: the error of `Body.Close` in the deferred function (line 110).

`log.Fatal`/`log.Fatalf` print and call `os.Exit`, which terminates the
process WITHOUT running deferred functions; this is reflected in `bodyClosed`.
Evaluating `res.Body` with `res` nil (line 114, the argument of the `defer`
statement, evaluated at registration time) is a nil-pointer panic. -/

/-- Response as seen by `ioutil.ReadAll`: the bytes it returns. -/
structure HttpResp where
  body : String
  deriving DecidableEq, Repr

structure HttpEnv where
  newRequestErr : Option String
  doResult : Option HttpResp
  readErr : Bool
  decode : String → Except String ApiResponse
  marshalErr : AqiSummary → Option String
  uiInitOk : Bool
  closeErr : Option String

/-- How a run of `getAqi` terminates. -/
inductive Outcome where
  | fatal (msg : String)
  | nilPanic
  | ok
  deriving DecidableEq, Repr

/-- Observable per-station events of the loop at lines 128-143, in order:
`summary a` is the `log.Println` of the marshalled summary (line 141),
`view s` is the call of `dataUi` for the station (line 142). -/
inductive Event where
  | summary (a : AqiSummary)
  | view (s : Station)
  deriving DecidableEq, Repr

structure RunResult where
  outcome : Outcome
  events : List Event
  bodyClosed : Bool
  deriving Repr

/-- The station loop, lines 128-143: per station, build the summary, marshal
it (`log.Fatalf` on marshal error), `log.Println` it, then run `dataUi`
(which `log.Fatalf`s when `ui.Init` fails, after the summary was printed).
Only when a station's view returns does the next station start. The loop
depends on the environment only through `marshalErr` and `uiInitOk`, which are
passed explicitly. -/
def viewStations (marshalErr : AqiSummary → Option String) (uiInitOk : Bool) :
    List Station → List Event × Outcome
  | [] => ([], .ok)
  | st :: rest =>
    let a := toAqiSummary st
    match marshalErr a with
    | some e => ([], .fatal ("unable to marshall the response : " ++ e))
    | none =>
      if uiInitOk then
        let r := viewStations marshalErr uiInitOk rest
        (.summary a :: .view st :: r.1, r.2)
      else
        ([.summary a], .fatal "failed to initialize termui")

/-- `getAqi`, lines 77-144, as a function of the five flag values and the
environment. Follows the source line by line: URL build (89-98, `log.Fatal`
on no guard), `http.NewRequest` (100-103), `Do` with discarded error (107),
`defer Body.Close` whose argument `res.Body` panics when `res` is nil (109-114),
`ReadAll` with discarded error (116), `json.Unmarshal` (118-122), empty-station
check (124-126), station loop (128-143). The deferred close runs only when the
function returns normally; every `log.Fatal` path exits without it. -/
def getAqiRun (city postal country latitude longitude : String)
    (env : HttpEnv) : RunResult :=
  match buildUrl city postal country latitude longitude with
  | none =>
      ⟨.fatal ("please specify the location by using any of the following flags: " ++
        "--city, --postal, --country, --latitude, --longitude"), [], false⟩
  | some _url =>
    match env.newRequestErr with
    | some e => ⟨.fatal e, [], false⟩
    | none =>
      match env.doResult with
      | none => ⟨.nilPanic, [], false⟩
      | some res =>
        -- `defer Body.Close()` registered; `body, _ := ReadAll(res.Body)`:
        -- the read error `env.readErr` is discarded, the bytes are used as-is.
        let body := res.body
        match env.decode body with
        | .error e =>
            ⟨.fatal ("unable to unmarshell the response : " ++ e), [], false⟩
        | .ok aqi =>
          if aqi.stations.isEmpty then
            ⟨.fatal "no stations found", [], false⟩
          else
            let r := viewStations env.marshalErr env.uiInitOk aqi.stations
            match r.2 with
            | .ok =>
              match env.closeErr with
              | some e => ⟨.fatal ("error occured: " ++ e), r.1, true⟩
              | none => ⟨.ok, r.1, true⟩
            | o => ⟨o, r.1, false⟩

/-! ### Terminal view `dataUi` (lines 146-207)

The widget construction is pure given the station; only `ui.Init` failure
(handled in `viewStations` above) and the event loop are effectful. -/

/-- Go's `int(f)` conversion: truncation toward zero. `float64` values are
modelled as exact rationals. -/
def goInt (q : ℚ) : ℤ := if 0 ≤ q then ⌊q⌋ else ⌈q⌉

/-- The termui colors assigned by `dataUi`. -/
inductive UiColor where
  | green
  | yellow
  | red
  deriving DecidableEq, Repr

/-- The `switch aqiInfo.Category` at lines 162-175: a fixed mapping from the
category string to a bar color; the switch has no default case, so for any
other string no assignment happens (`none` = the widget's default color is
kept). -/
def barColorRule (category : String) : Option UiColor :=
  match category with
  | "Good" => some .green
  | "Moderate" => some .yellow
  | "Unhealthy for Sensitive Groups" => some .red
  | "Unhealthy" => some .red
  | "Very Unhealthy" => some .red
  | "Hazardous" => some .red
  | _ => none

/-- The gauge widget fields set at lines 157-175. -/
structure GaugeModel where
  percent : ℤ
  title : String
  barColor : Option UiColor
  deriving DecidableEq, Repr

/-- Gauge construction (lines 157-175): `g.Percent = int((aqi / 500) * 100)`,
`g.Title = "Air Quality Index = " + strconv.Itoa(int(aqi))`, bar color from
the category switch. -/
def mkGauge (aqi : ℚ) (info : AqiInfo) : GaugeModel :=
  { percent := goInt (aqi / 500 * 100)
    title := "Air Quality Index = " ++ toString (goInt aqi)
    barColor := barColorRule info.category }

/-- Rows of the first list widget (lines 178-183). -/
def pollutantRows (info : AqiInfo) : List String :=
  ["Pollutant: " ++ info.pollutant,
   "Concentration: " ++ toString (goInt info.concentration),
   "Category: " ++ info.category]

/-- Rows of the second list widget (lines 188-194). -/
def locationRows (s : Station) : List String :=
  ["City: " ++ s.city,
   "State: " ++ s.state,
   "Place: " ++ s.place,
   "Updated At: " ++ s.updatedAt]

/-- The quit test of the `switch e.ID` at lines 202-205. -/
def isQuitKey (id : String) : Bool := id == "q" || id == "<C-c>"

/-- The event loop at lines 199-206, run against the (finite prefix of the)
stream of input events, each represented by its `e.ID` string. The loop body
does nothing but test the ID: the rendered view (type `α`, rendered once at
line 197 before the loop) is threaded through unchanged and returned together
with the index of the event that caused the return; `none` means the loop is
still blocked after consuming every listed event. -/
def eventLoop {α : Type} (view : α) : List String → Option (ℕ × α)
  | [] => none
  | e :: es =>
    if isQuitKey e then some (0, view)
    else (eventLoop view es).map (fun p => (p.1 + 1, p.2))

/-! ### Sample data and environments for concrete runs -/

def sampleInfo : AqiInfo := ⟨"PM25", 80, "Moderate"⟩

def sampleStation : Station :=
  ⟨1, 2, 3, 4, 5, "PK", "Punjab", 31.5, 74.3, "54000", "Lahore", "Gulberg",
    "Punjab", "2021-07-28T09:00:00.000Z", 160, sampleInfo⟩

/-- A fully successful environment whose `ReadAll` nevertheless reports an
error (`readErr = true`), which line 116 discards. -/
def envReadErr : HttpEnv :=
  { newRequestErr := none
    doResult := some ⟨"body-bytes"⟩
    readErr := true
    decode := fun _ => .ok ⟨"ok", [sampleStation]⟩
    marshalErr := fun _ => none
    uiInitOk := true
    closeErr := none }

/-- An environment whose request construction fails. -/
def envNewReqErr : HttpEnv :=
  { envReadErr with newRequestErr := some "boom", readErr := false }

/-- An environment in which `Do` fails: nil response, discarded error. -/
def envDoFail : HttpEnv :=
  { envReadErr with doResult := none, readErr := false }

/-- An environment whose JSON decode fails. -/
def envDecodeFail : HttpEnv :=
  { envReadErr with decode := fun _ => .error "invalid character", readErr := false }

/-- An environment that decodes to an empty station list. -/
def envEmptyStations : HttpEnv :=
  { envReadErr with decode := fun _ => .ok ⟨"stations fetched", []⟩, readErr := false }

/-- A fully successful environment (no read error). -/
def envOk : HttpEnv := { envReadErr with readErr := false }

end Aqi

/-! ### C1 and C2 -/

/-- C1 counterexample: the flag combination city="Lahore", postal="54000",
country="PK" is a valid shape (postal+country) plus an extra flag (city), hence
outside the three exact shapes; yet the second guard of the builder fires
(it does not inspect `city`) and a URL is produced, contradicting the claim
that no combination outside the three shapes produces a URL. -/
theorem C1_counterexample :
    ¬ Aqi.specValidShape "Lahore" "54000" "PK" "" "" ∧
      (Aqi.buildUrl "Lahore" "54000" "PK" "" "").isSome = true := by
  constructor
  · decide
  · rfl

/-- C1 (amended): the query builder fatals (returns no URL) exactly when none of
the code's three guards holds: (1) city set and all four other flags empty;
(2) postal and country set with latitude and longitude empty — city
unconstrained; (3) latitude and longitude set — city, postal, country
unconstrained. In particular, all flags empty, or country alone, is rejected;
but a valid shape plus certain extra flags (e.g. city together with
postal+country) still produces a URL. -/
theorem C1_buildUrl_none_iff (c p o la lo : String) :
    Aqi.buildUrl c p o la lo = none ↔
      ¬ (c ≠ "" ∧ p = "" ∧ o = "" ∧ la = "" ∧ lo = "") ∧
      ¬ (p ≠ "" ∧ o ≠ "" ∧ la = "" ∧ lo = "") ∧
      ¬ (la ≠ "" ∧ lo ≠ "") := by
  unfold Aqi.buildUrl
  split
  · simp_all
  · split
    · simp_all
    · split
      · simp_all
      · simp_all

/-- C1 witness: all-empty flags and country-alone are both rejected (derived by
applying the amended theorem at concrete inputs). -/
theorem C1_buildUrl_none_iff_witness :
    Aqi.buildUrl "" "" "" "" "" = none ∧ Aqi.buildUrl "" "" "PK" "" "" = none := by
  constructor
  · exact (C1_buildUrl_none_iff "" "" "" "" "").mpr (by decide)
  · exact (C1_buildUrl_none_iff "" "" "PK" "" "").mpr (by decide)

/-- C2: for each of the three valid flag shapes the built URL is exactly the
fixed base with the raw (unencoded) query parameters concatenated:
city=Lahore, postal=54000&country=PK, lat=31.5&lng=74.3. -/
theorem C2_built_urls :
    Aqi.buildUrl "Lahore" "" "" "" "" = some "http://localhost:3000/api?city=Lahore" ∧
    Aqi.buildUrl "" "54000" "PK" "" "" =
      some "http://localhost:3000/api?postal=54000&country=PK" ∧
    Aqi.buildUrl "" "" "" "31.5" "74.3" =
      some "http://localhost:3000/api?lat=31.5&lng=74.3" := by
  refine ⟨rfl, ?_, ?_⟩ <;> rfl

/-! ### C3, C4, C5 -/

/-- C3 counterexample: a run whose `ioutil.ReadAll` reports an error
(`readErr = true`) nevertheless completes successfully — the error return at
line 116 is bound to `_` and discarded — refuting the claim that every
response-read error causes the process to log the error and exit non-zero. -/
theorem C3_counterexample :
    Aqi.envReadErr.readErr = true ∧
      (Aqi.getAqiRun "Lahore" "" "" "" "" Aqi.envReadErr).outcome = Aqi.Outcome.ok :=
  ⟨rfl, rfl⟩

/-- C3 (amended): request-construction errors and JSON-decode errors are each
fatal (the process logs the error and exits non-zero), but the response-read
error of `ioutil.ReadAll` is discarded: the run's entire result is independent
of it, and processing continues with whatever bytes were read. -/
theorem C3_fatal_errors (c p o la lo u : String) (env : Aqi.HttpEnv)
    (hurl : Aqi.buildUrl c p o la lo = some u) :
    (∀ e, env.newRequestErr = some e →
      (Aqi.getAqiRun c p o la lo env).outcome = Aqi.Outcome.fatal e) ∧
    (∀ res e, env.newRequestErr = none → env.doResult = some res →
      env.decode res.body = .error e →
      (Aqi.getAqiRun c p o la lo env).outcome =
        Aqi.Outcome.fatal ("unable to unmarshell the response : " ++ e)) ∧
    (∀ b, Aqi.getAqiRun c p o la lo { env with readErr := b } =
      Aqi.getAqiRun c p o la lo env) := by
  refine ⟨?_, ?_, ?_⟩
  · intro e he
    simp [Aqi.getAqiRun, hurl, he]
  · intro res e hreq hdo hdec
    simp [Aqi.getAqiRun, hurl, hreq, hdo, hdec]
  · intro b
    rfl

/-- C3 witness: the amended theorem applied at concrete inputs — a failing
`http.NewRequest` is fatal with its error message, a failing decode is fatal
with the unmarshal diagnostic, and flipping `readErr` leaves a successful run
unchanged. -/
theorem C3_fatal_errors_witness :
    (Aqi.getAqiRun "Lahore" "" "" "" "" Aqi.envNewReqErr).outcome =
        Aqi.Outcome.fatal "boom" ∧
    (Aqi.getAqiRun "Lahore" "" "" "" "" Aqi.envDecodeFail).outcome =
        Aqi.Outcome.fatal "unable to unmarshell the response : invalid character" ∧
    Aqi.getAqiRun "Lahore" "" "" "" "" { Aqi.envOk with readErr := true } =
      Aqi.getAqiRun "Lahore" "" "" "" "" Aqi.envOk := by
  refine ⟨?_, ?_, ?_⟩
  · exact (C3_fatal_errors "Lahore" "" "" "" ""
      "http://localhost:3000/api?city=Lahore" Aqi.envNewReqErr rfl).1 "boom" rfl
  · exact (C3_fatal_errors "Lahore" "" "" "" ""
      "http://localhost:3000/api?city=Lahore" Aqi.envDecodeFail rfl).2.1
      ⟨"body-bytes"⟩ "invalid character" rfl rfl rfl
  · exact (C3_fatal_errors "Lahore" "" "" "" ""
      "http://localhost:3000/api?city=Lahore" Aqi.envOk rfl).2.2 true

/-- C4: when `http.DefaultClient.Do` fails (non-nil error, nil response), the
error is discarded (`res, _ :=`, line 107) and the program evaluates `res.Body`
on the nil response (line 114, the argument of the `defer` statement),
panicking with a nil-pointer dereference: no fatal log line, no events, and the
body is never closed. -/
theorem C4_nil_response_panics (c p o la lo u : String) (env : Aqi.HttpEnv)
    (hurl : Aqi.buildUrl c p o la lo = some u)
    (hreq : env.newRequestErr = none)
    (hdo : env.doResult = none) :
    Aqi.getAqiRun c p o la lo env = ⟨Aqi.Outcome.nilPanic, [], false⟩ := by
  simp [Aqi.getAqiRun, hurl, hreq, hdo]

/-- C4 witness: the theorem applied to a concrete run with a failing `Do`. -/
theorem C4_nil_response_panics_witness :
    Aqi.getAqiRun "Lahore" "" "" "" "" Aqi.envDoFail =
      ⟨Aqi.Outcome.nilPanic, [], false⟩ :=
  C4_nil_response_panics "Lahore" "" "" "" ""
    "http://localhost:3000/api?city=Lahore" Aqi.envDoFail rfl rfl rfl

/-- C5: a successfully decoded envelope with an empty station list is fatal
("no stations found"), whatever the envelope's `message`: no summary is logged
and no terminal view is opened (empty event trace), and the deferred close is
skipped (`log.Fatal` exits without running defers). -/
theorem C5_empty_stations_fatal (c p o la lo u msg : String) (env : Aqi.HttpEnv)
    (res : Aqi.HttpResp)
    (hurl : Aqi.buildUrl c p o la lo = some u)
    (hreq : env.newRequestErr = none)
    (hdo : env.doResult = some res)
    (hdec : env.decode res.body = .ok ⟨msg, []⟩) :
    Aqi.getAqiRun c p o la lo env = ⟨Aqi.Outcome.fatal "no stations found", [], false⟩ := by
  simp [Aqi.getAqiRun, hurl, hreq, hdo, hdec]

/-- C5 witness: the theorem applied to a concrete run whose decode yields an
envelope with message "stations fetched" and zero stations. -/
theorem C5_empty_stations_fatal_witness :
    Aqi.getAqiRun "Lahore" "" "" "" "" Aqi.envEmptyStations =
      ⟨Aqi.Outcome.fatal "no stations found", [], false⟩ :=
  C5_empty_stations_fatal "Lahore" "" "" "" ""
    "http://localhost:3000/api?city=Lahore" "stations fetched"
    Aqi.envEmptyStations ⟨"body-bytes"⟩ rfl rfl rfl rfl

/-! ### C6, C7 (gauge), C8 (station loop), C9 (event loop), C10 (body close) -/

/-- C6: the gauge percentage is exactly the truncation toward zero of
`(aqi / 500) * 100` (line 158), and in particular 50 at AQI 250, 100 at
AQI 500, and 0 at AQI 0. -/
theorem C6_gauge_percent :
    (∀ (aqi : ℚ) (info : Aqi.AqiInfo),
      (Aqi.mkGauge aqi info).percent = Aqi.goInt (aqi / 500 * 100)) ∧
    (∀ info : Aqi.AqiInfo, (Aqi.mkGauge 250 info).percent = 50) ∧
    (∀ info : Aqi.AqiInfo, (Aqi.mkGauge 500 info).percent = 100) ∧
    (∀ info : Aqi.AqiInfo, (Aqi.mkGauge 0 info).percent = 0) := by
  refine ⟨fun aqi info => rfl, fun info => ?_, fun info => ?_, fun info => ?_⟩ <;>
    norm_num [Aqi.mkGauge, Aqi.goInt]

/-- C7: the bar color is a fixed function of the category string — green for
"Good", yellow for "Moderate", red for the four higher categories — and for
any string outside these six the switch (which has no default case) assigns
nothing, leaving the widget's default color. -/
theorem C7_bar_color :
    Aqi.barColorRule "Good" = some Aqi.UiColor.green ∧
    Aqi.barColorRule "Moderate" = some Aqi.UiColor.yellow ∧
    Aqi.barColorRule "Unhealthy for Sensitive Groups" = some Aqi.UiColor.red ∧
    Aqi.barColorRule "Unhealthy" = some Aqi.UiColor.red ∧
    Aqi.barColorRule "Very Unhealthy" = some Aqi.UiColor.red ∧
    Aqi.barColorRule "Hazardous" = some Aqi.UiColor.red ∧
    ∀ c : String,
      c ∉ ["Good", "Moderate", "Unhealthy for Sensitive Groups", "Unhealthy",
        "Very Unhealthy", "Hazardous"] →
      Aqi.barColorRule c = none := by
  refine ⟨rfl, rfl, rfl, rfl, rfl, rfl, ?_⟩
  intro c hc
  unfold Aqi.barColorRule
  split <;> simp_all

/-- C7 witness: the unrecognized category "Fine" gets no color rule. -/
theorem C7_bar_color_witness :
    "Fine" ∉ ["Good", "Moderate", "Unhealthy for Sensitive Groups", "Unhealthy",
      "Very Unhealthy", "Hazardous"] ∧
    Aqi.barColorRule "Fine" = none :=
  ⟨by decide, C7_bar_color.2.2.2.2.2.2 "Fine" (by decide)⟩

/-- When every summary marshals and `ui.Init` succeeds, the station loop emits,
for each station in order, its summary line followed by its view, and ends in
the `ok` outcome. -/
theorem viewStations_all_ok (me : Aqi.AqiSummary → Option String)
    (sts : List Aqi.Station)
    (hm : ∀ s ∈ sts, me (Aqi.toAqiSummary s) = none) :
    Aqi.viewStations me true sts =
      (sts.flatMap fun s => [Aqi.Event.summary (Aqi.toAqiSummary s), Aqi.Event.view s],
        Aqi.Outcome.ok) := by
  induction sts with
  | nil => rfl
  | cons st rest ih =>
    have h1 : me (Aqi.toAqiSummary st) = none := hm st (List.mem_cons_self st rest)
    have h2 := ih (fun s hs => hm s (List.mem_cons_of_mem st hs))
    simp [Aqi.viewStations, h1, h2]

/-- C8: on a successful decode with a non-empty station list (and with every
summary marshalling and `ui.Init` succeeding), the run's event trace is, for
each station in response order, exactly the summary emission followed by the
view for that station. The model is strictly sequential: the trace of station
n+1 appears only after `dataUi` for station n has returned. -/
theorem C8_station_reporting (c p o la lo u : String) (env : Aqi.HttpEnv)
    (res : Aqi.HttpResp) (resp : Aqi.ApiResponse)
    (hurl : Aqi.buildUrl c p o la lo = some u)
    (hreq : env.newRequestErr = none)
    (hdo : env.doResult = some res)
    (hdec : env.decode res.body = .ok resp)
    (hne : resp.stations ≠ [])
    (hm : ∀ s ∈ resp.stations, env.marshalErr (Aqi.toAqiSummary s) = none)
    (hui : env.uiInitOk = true) :
    (Aqi.getAqiRun c p o la lo env).events =
      resp.stations.flatMap
        (fun s => [Aqi.Event.summary (Aqi.toAqiSummary s), Aqi.Event.view s]) := by
  have hv := viewStations_all_ok env.marshalErr resp.stations hm
  rw [← hui] at hv
  simp [Aqi.getAqiRun, hurl, hreq, hdo, hdec, hne, hv]
  cases env.closeErr <;> simp

/-- C8 witness: the theorem applied to a successful one-station run. -/
theorem C8_station_reporting_witness :
    (Aqi.getAqiRun "Lahore" "" "" "" "" Aqi.envOk).events =
      [Aqi.sampleStation].flatMap
        (fun s => [Aqi.Event.summary (Aqi.toAqiSummary s), Aqi.Event.view s]) :=
  C8_station_reporting "Lahore" "" "" "" ""
    "http://localhost:3000/api?city=Lahore" Aqi.envOk ⟨"body-bytes"⟩
    ⟨"ok", [Aqi.sampleStation]⟩ rfl rfl rfl rfl (by simp) (fun s _ => rfl) rfl

/-- C9: the event loop (lines 199-206) returns exactly at the first event
whose ID is "q" or "<C-c>": the returned index is the length of the maximal
prefix of non-quit events (all of them ignored), the rendered view is returned
unchanged (the loop body touches nothing else), and if no listed event is a
quit event the loop does not return. -/
theorem C9_event_loop {α : Type} (v : α) (evs : List String) :
    Aqi.eventLoop v evs =
      if evs.any Aqi.isQuitKey then
        some ((evs.takeWhile (fun e => !Aqi.isQuitKey e)).length, v)
      else none := by
  induction evs with
  | nil => rfl
  | cons e es ih =>
    by_cases h : Aqi.isQuitKey e
    · simp [Aqi.eventLoop, h, List.takeWhile_cons]
    · simp [Aqi.eventLoop, h, List.takeWhile_cons, ih]

/-- C10 counterexample: a run whose JSON decode fails exits through
`log.Fatalf` (line 121), i.e. `os.Exit`, which does not run the deferred
`Body.Close` (lines 109-114): the body is read but never closed, refuting the
claim that the body is released regardless of decode success or failure. -/
theorem C10_counterexample :
    Aqi.envDecodeFail.decode "body-bytes" = .error "invalid character" ∧
    (Aqi.getAqiRun "Lahore" "" "" "" "" Aqi.envDecodeFail).bodyClosed = false :=
  ⟨rfl, rfl⟩

/-- C10 (amended): after a successful `Do`, the deferred close runs — after the
body has been fully read — only on runs in which `getAqi` returns normally
(successful decode, non-empty stations, all summaries marshalled and viewed);
a decode failure exits via `log.Fatal`, which terminates the process without
running the deferred close, so the body is then never closed. -/
theorem C10_body_close (c p o la lo u : String) (env : Aqi.HttpEnv)
    (res : Aqi.HttpResp)
    (hurl : Aqi.buildUrl c p o la lo = some u)
    (hreq : env.newRequestErr = none)
    (hdo : env.doResult = some res) :
    (∀ resp : Aqi.ApiResponse, env.decode res.body = .ok resp →
      resp.stations ≠ [] →
      (∀ s ∈ resp.stations, env.marshalErr (Aqi.toAqiSummary s) = none) →
      env.uiInitOk = true →
      (Aqi.getAqiRun c p o la lo env).bodyClosed = true) ∧
    (∀ e, env.decode res.body = .error e →
      (Aqi.getAqiRun c p o la lo env).bodyClosed = false) := by
  constructor
  · intro resp hdec hne hm hui
    have hv := viewStations_all_ok env.marshalErr resp.stations hm
    rw [← hui] at hv
    simp [Aqi.getAqiRun, hurl, hreq, hdo, hdec, hne, hv]
    cases env.closeErr <;> simp
  · intro e hdec
    simp [Aqi.getAqiRun, hurl, hreq, hdo, hdec]

/-- C10 witness: the amended theorem applied to a successful run (body closed)
and to a run with a failing decode (body left unclosed). -/
theorem C10_body_close_witness :
    (Aqi.getAqiRun "Lahore" "" "" "" "" Aqi.envOk).bodyClosed = true ∧
    (Aqi.getAqiRun "Lahore" "" "" "" "" Aqi.envDecodeFail).bodyClosed = false :=
  ⟨(C10_body_close "Lahore" "" "" "" "" "http://localhost:3000/api?city=Lahore"
      Aqi.envOk ⟨"body-bytes"⟩ rfl rfl rfl).1
      ⟨"ok", [Aqi.sampleStation]⟩ rfl (by simp) (fun s _ => rfl) rfl,
   (C10_body_close "Lahore" "" "" "" "" "http://localhost:3000/api?city=Lahore"
      Aqi.envDecodeFail ⟨"body-bytes"⟩ rfl rfl rfl).2 "invalid character" rfl⟩
